import Mathlib

/-!
Animation Scheduling & Particle Engine — shallow embedding

A shallow embedding in Lean 4 of the animation core of `mypet-tui`
(`src/animation/{types,frame,engine,loader}.rs`), together with theorems
settling the specification claims about it.

Modelling conventions:
* `Instant` and `Duration` are modelled as `ℚ` (seconds).  Rust's
  `Instant::duration_since` / `Instant::elapsed` saturate at zero, which we
  render as `max (now - earlier) 0`.
* `f32` particle coordinates and velocities are modelled as exact rationals
  (the idealised real-valued semantics of the arithmetic the code performs).
* Machine integers (`usize`, `u32`, `u16`, `u64`) are modelled as `ℕ`, and
  `i16` as `ℤ`; the only subtraction, `len().saturating_sub(1)`, is exactly
  `ℕ` truncated subtraction.
* Calls to `Instant::now()` inside the Rust methods become an explicit
  `now : ℚ` argument threaded through.
-/

/-- The subset of `ratatui::style::Color` the animation data uses. -/
inductive Color
  | DarkGray
  | White
  deriving DecidableEq, Repr

/-- Source `AnimationPriority` from `src/animation/types.rs` (derives `Ord` by
discriminant order). -/
inductive AnimationPriority
  | Background
  | Idle
  | Mood
  | Action
  | Transition
  | Critical
  deriving DecidableEq, Repr, Fintype

/-- Rust discriminant of the priority (used to realise the derived `Ord`). -/
def AnimationPriority.toNat : AnimationPriority → ℕ
  | .Background => 0
  | .Idle => 1
  | .Mood => 2
  | .Action => 3
  | .Transition => 4
  | .Critical => 5

instance : LinearOrder AnimationPriority :=
  LinearOrder.lift' AnimationPriority.toNat (by decide)

/-- Source `AnimationType` from `src/animation/types.rs`: the closed enumeration of
animation kinds. -/
inductive AnimationType
  | IdleNeutral
  | IdleHappy
  | IdleSad
  | IdleSleeping
  | MoodHappy
  | MoodExcited
  | MoodSad
  | MoodAngry
  | ActionEating
  | ActionPlaying
  | ActionCleaning
  | ActionSleeping
  | ActionMedicine
  | TransitionWakeUp
  | TransitionFallAsleep
  | TransitionEvolve
  | TransitionGetSick
  | TransitionHeal
  | TransitionDie
  | EffectHearts
  | EffectFood
  | EffectSparkles
  | EffectZzz
  | EffectSweat
  deriving DecidableEq, Repr, Fintype

/-- Source `AnimationType::priority` from `src/animation/types.rs`. -/
def AnimationType.priority : AnimationType → AnimationPriority
  | .EffectHearts | .EffectFood | .EffectSparkles | .EffectZzz | .EffectSweat =>
      .Background
  | .IdleNeutral | .IdleHappy | .IdleSad | .IdleSleeping => .Idle
  | .MoodHappy | .MoodExcited | .MoodSad | .MoodAngry => .Mood
  | .ActionEating | .ActionPlaying | .ActionCleaning | .ActionSleeping
  | .ActionMedicine => .Action
  | .TransitionWakeUp | .TransitionFallAsleep | .TransitionEvolve
  | .TransitionGetSick | .TransitionHeal | .TransitionDie => .Transition

/-- Source `AnimationType::is_infinite` from `src/animation/types.rs`. -/
def AnimationType.is_infinite : AnimationType → Bool
  | .IdleNeutral | .IdleHappy | .IdleSad | .IdleSleeping
  | .MoodHappy | .MoodSad => true
  | _ => false

/-- Source `Duration::from_millis`, in the ℚ-seconds model of time. -/
def millis (ms : ℕ) : ℚ := (ms : ℚ) / 1000

/-- Source `ParticleSpec` from `src/animation/frame.rs`. -/
structure ParticleSpec where
  symbol : Char
  x_offset : ℤ
  y_offset : ℤ
  vx : ℚ
  vy : ℚ
  lifetime_ms : ℕ
  color : Color
  deriving DecidableEq, Repr

/-- Source `AnimationFrame` from `src/animation/frame.rs`. -/
structure AnimationFrame where
  art : List String
  duration : ℚ
  color_override : Option Color
  particles : List ParticleSpec
  deriving DecidableEq, Repr

/-- Source `AnimationFrame::new`. -/
def AnimationFrame.new (art : List String) : AnimationFrame :=
  { art := art
    duration := millis 100
    color_override := none
    particles := [] }

/-- Source `AnimationFrame::with_duration`. -/
def AnimationFrame.with_duration (f : AnimationFrame) (ms : ℕ) : AnimationFrame :=
  { f with duration := millis ms }

/-- Source `AnimationFrame::with_color`. -/
def AnimationFrame.with_color (f : AnimationFrame) (c : Color) : AnimationFrame :=
  { f with color_override := some c }

/-- Source `Particle` from `src/animation/frame.rs`. -/
structure Particle where
  spec : ParticleSpec
  x : ℚ
  y : ℚ
  birth_time : ℚ
  deriving DecidableEq, Repr

/-- Source `Particle::new` (the `Instant::now()` of the constructor is the explicit
`now` argument). -/
def Particle.new (spec : ParticleSpec) (base_x base_y : ℕ) (now : ℚ) : Particle :=
  { x := (base_x : ℚ) + (spec.x_offset : ℚ)
    y := (base_y : ℚ) + (spec.y_offset : ℚ)
    spec := spec
    birth_time := now }

/-- Source `Particle::update`: integrate position by `velocity * dt` (dt in seconds). -/
def Particle.update (p : Particle) (dt : ℚ) : Particle :=
  { p with x := p.x + p.spec.vx * dt, y := p.y + p.spec.vy * dt }

/-- Source `Particle::is_alive`: age (saturating elapsed time since birth) strictly
below the spec lifetime. -/
def Particle.is_alive (p : Particle) (now : ℚ) : Bool :=
  decide (max (now - p.birth_time) 0 < millis p.spec.lifetime_ms)

/-- Source `ActiveAnimation` from `src/animation/engine.rs`. -/
structure ActiveAnimation where
  anim_type : AnimationType
  frames : List AnimationFrame
  current_frame : ℕ
  frame_start : ℚ
  loop_count : ℕ
  max_loops : Option ℕ
  deriving DecidableEq, Repr

/-- Source `ActiveAnimation::new` (the constructor's `Instant::now()` is `now`). -/
def ActiveAnimation.new (t : AnimationType) (frames : List AnimationFrame)
    (now : ℚ) : ActiveAnimation :=
  { anim_type := t
    frames := frames
    current_frame := 0
    frame_start := now
    loop_count := 0
    max_loops := if t.is_infinite then none else some 1 }

/-- Source `ActiveAnimation::current_frame_ref`.  Rust indexes
`self.frames[self.current_frame]` (a panic when out of bounds); by the bounds
invariant the index is always valid in the engine, so the default frame of
`getD` is never reached there. -/
def ActiveAnimation.current_frame_ref (a : ActiveAnimation) : AnimationFrame :=
  a.frames.getD a.current_frame (AnimationFrame.new [])

/-- Source `ActiveAnimation::should_advance`: elapsed time since the current frame
started is at least the frame's duration. -/
def ActiveAnimation.should_advance (a : ActiveAnimation) (now : ℚ) : Bool :=
  decide (a.current_frame_ref.duration ≤ max (now - a.frame_start) 0)

/-- Source `ActiveAnimation::advance`: step the frame index, handling wrap-around,
the loop counter, and one-shot completion (returned `Bool`). -/
def ActiveAnimation.advance (a : ActiveAnimation) (now : ℚ) :
    ActiveAnimation × Bool :=
  let cf := a.current_frame + 1
  if a.frames.length ≤ cf then
    let lc := a.loop_count + 1
    match a.max_loops with
    | some max =>
        if max ≤ lc then
          ({ a with current_frame := a.frames.length - 1
                    frame_start := now
                    loop_count := lc }, true)
        else
          ({ a with current_frame := 0, frame_start := now, loop_count := lc },
           false)
    | none =>
        ({ a with current_frame := 0, frame_start := now, loop_count := lc },
         false)
  else
    ({ a with current_frame := cf, frame_start := now }, false)

/-- Source `k` successive `advance` calls (all at time `now`; the timestamp argument
does not influence the control flow of `advance`). -/
def ActiveAnimation.advanceN (a : ActiveAnimation) (now : ℚ) : ℕ → ActiveAnimation
  | 0 => a
  | k + 1 => ((a.advanceN now k).advance now).1

/-- The frame table built by `FrameCache::load_builtin`
(`src/animation/loader.rs`): the value inserted for each key of the
`HashMap`, `none` for kinds that `load_builtin` never inserts (the five
`Effect*` kinds). -/
def FrameCache.load_builtin : AnimationType → Option (List AnimationFrame)
  | .IdleNeutral => some
      [ (AnimationFrame.new
          [ "  /\\_/\\  ",
            " ( o.o ) ",
            "  > ^ <  " ]).with_duration 500,
        (AnimationFrame.new
          [ "  /\\_/\\  ",
            " ( -.- ) ",
            "  > ^ <  " ]).with_duration 200,
        (AnimationFrame.new
          [ "  /\\_/\\  ",
            " ( o.o ) ",
            "  > ^ <  " ]).with_duration 500 ]
  | .IdleHappy => some
      [ (AnimationFrame.new
          [ "  /\\_/\\  ",
            " ( ^.^ ) ",
            "  > ^ <  " ]).with_duration 400,
        (AnimationFrame.new
          [ "  \\   /  ",
            "  /\\_/\\  ",
            " ( ^.^ ) " ]).with_duration 200,
        (AnimationFrame.new
          [ "  /\\_/\\  ",
            " ( ^.^ ) ",
            "  > ^ <  " ]).with_duration 400 ]
  | .IdleSad => some
      [ (AnimationFrame.new
          [ "  /\\_/\\  ",
            " ( ;.; ) ",
            "  > ~ <  " ]).with_duration 600,
        (AnimationFrame.new
          [ "  /\\_/\\  ",
            " ( ;.; ) ",
            "  > ~ <  " ]).with_duration 600 ]
  | .IdleSleeping => some
      [ ((AnimationFrame.new
          [ "  /\\_/\\  ",
            " ( -.- ) ",
            "  > ^ <  " ]).with_duration 800).with_color Color.DarkGray ]
  | .ActionEating => some
      [ (AnimationFrame.new
          [ "  /\\_/\\  #",
            " ( o.o )  ",
            "  > ^ <  " ]).with_duration 300,
        (AnimationFrame.new
          [ "  /\\_/#  ",
            " ( Oo  )  ",
            "  > ^ <  " ]).with_duration 300,
        (AnimationFrame.new
          [ "  /\\_/\\  ",
            " (  -  )* ",
            "  > ^ <  " ]).with_duration 300,
        (AnimationFrame.new
          [ "  /\\_/\\  ",
            " ( ^.^ )* ",
            "  > ^ <  " ]).with_duration 300,
        (AnimationFrame.new
          [ "  /\\_/\\  ",
            " ( ^.^ )  ",
            "  > ^ <  " ]).with_duration 300 ]
  | .ActionPlaying => some
      [ (AnimationFrame.new
          [ "  /\\_/\\  ",
            " ( ^.^ )  ",
            " /  >  \\ " ]).with_duration 200,
        (AnimationFrame.new
          [ "   /\\_/\\  ",
            "  ( ^.^ )  ",
            "   >  <   " ]).with_duration 200,
        (AnimationFrame.new
          [ "  /\\_/\\  ",
            " ( ^.^ )  ",
            " \\  <  / " ]).with_duration 200,
        (AnimationFrame.new
          [ " /\\_/\\   ",
            "( ^.^ )   ",
            "  < >    " ]).with_duration 200,
        (AnimationFrame.new
          [ "  /\\_/\\  ",
            " ( ^.^ )  ",
            "  > ^ <  " ]).with_duration 200 ]
  | .ActionCleaning => some
      [ (AnimationFrame.new
          [ "  /\\_/\\  ",
            " ( o.o )  ",
            "  > ^ <  " ]).with_duration 200,
        (AnimationFrame.new
          [ "  /\\_/\\ * ",
            " ( ^.^ )  ",
            "  > ^ <  " ]).with_duration 200,
        (AnimationFrame.new
          [ "* /\\_/\\ *",
            " ( ^.^ )  ",
            "  > ^ <  " ]).with_duration 200,
        (AnimationFrame.new
          [ "  /\\_/\\  ",
            "* ( ^.^ )*",
            "  > ^ <  " ]).with_duration 200,
        (AnimationFrame.new
          [ "  /\\_/\\  ",
            " ( ^.^ )  ",
            "  > ^ <  " ]).with_duration 200 ]
  | .ActionSleeping => some
      [ (AnimationFrame.new
          [ "  /\\_/\\  ",
            " ( -.- )  ",
            "  > ^ <  ",
            "  zZz    " ]).with_duration 400,
        (AnimationFrame.new
          [ "  /\\_/\\  ",
            " ( -.- )  ",
            "  > ^ <  ",
            "   Zz    " ]).with_duration 300,
        (AnimationFrame.new
          [ "  /\\_/\\  ",
            " ( -.- )  ",
            "  > ^ <  ",
            "    z    " ]).with_duration 300 ]
  | .ActionMedicine => some
      [ (AnimationFrame.new
          [ "  /\\_/\\  ",
            " ( ;.; )  ",
            "  > ^ <  " ]).with_duration 200,
        (AnimationFrame.new
          [ "  /\\_/\\ + ",
            " ( O.O )  ",
            "  > ^ <  " ]).with_duration 200,
        (AnimationFrame.new
          [ "  /\\_/\\  ",
            " ( ^.^ )* ",
            "  > ^ <  " ]).with_duration 200,
        (AnimationFrame.new
          [ "  /\\_/\\  ",
            " ( ^.^ )  ",
            "  > ^ <  " ]).with_duration 400 ]
  | .TransitionWakeUp => some
      [ (AnimationFrame.new
          [ "  /\\_/\\  ",
            " ( -.- )  ",
            "  > ^ <  " ]).with_duration 300,
        (AnimationFrame.new
          [ "  /\\_/\\  ",
            " ( o.o )  ",
            "  > ^ <  " ]).with_duration 300,
        (AnimationFrame.new
          [ "  /\\_/\\  ",
            " ( ^.^ )  ",
            "  > ^ <  " ]).with_duration 400 ]
  | .TransitionFallAsleep => some
      [ (AnimationFrame.new
          [ "  /\\_/\\  ",
            " ( o.o )  ",
            "  > ^ <  " ]).with_duration 300,
        (AnimationFrame.new
          [ "  /\\_/\\  ",
            " ( -.- )  ",
            "  > ^ <  " ]).with_duration 300,
        (AnimationFrame.new
          [ "  /\\_/\\  ",
            " ( -.- )  ",
            "  > ~ <  ",
            "  zZz    " ]).with_duration 400 ]
  | .TransitionEvolve => some
      [ (AnimationFrame.new
          [ "  /\\_/\\  ",
            " ( o.o )  ",
            "  > ^ <  " ]).with_duration 500,
        (AnimationFrame.new
          [ " */\\_/\\*  ",
            " *( o.o )* ",
            " * > ^ < * " ]).with_duration 500,
        (AnimationFrame.new
          [ "#*/\\_/\\*# ",
            "#*( o.o )*#",
            "#* > ^ < *#" ]).with_duration 1000,
        (AnimationFrame.new
          [ " *#/\\_/\\#* ",
            "#*( ^.^ )*#",
            " *# > ^ < #*" ]).with_duration 1000 ]
  | .TransitionGetSick => some
      [ (AnimationFrame.new
          [ "  /\\_/\\  ",
            " ( o.o )  ",
            "  > ^ <  " ]).with_duration 300,
        (AnimationFrame.new
          [ "  /\\_/\\ ~ ",
            " ( ;.; )  ",
            "  > ~ <  " ]).with_duration 300,
        (AnimationFrame.new
          [ "  /\\_/\\ ~ ",
            " ( +.+ )  ",
            "  > ~ <  " ]).with_duration 400 ]
  | .TransitionHeal => some
      [ (AnimationFrame.new
          [ "  /\\_/\\ + ",
            " ( ;.; )  ",
            "  > ~ <  " ]).with_duration 300,
        (AnimationFrame.new
          [ "  /\\_/\\ *  ",
            " ( ^.^ )  ",
            "  > ^ <  " ]).with_duration 300,
        (AnimationFrame.new
          [ "  /\\_/\\  ",
            " ( ^.^ )  ",
            "  > ^ <  " ]).with_duration 400 ]
  | .TransitionDie => some
      [ (AnimationFrame.new
          [ "  /\\_/\\  ",
            " ( x.x )  ",
            "  > ^ <  " ]).with_duration 500,
        (AnimationFrame.new
          [ "  /\\_/\\  ",
            " ( -.- )  ",
            "  > x <  " ]).with_duration 500,
        (AnimationFrame.new
          [ "   x_x    ",
            "   ---    ",
            "          " ]).with_duration 1000 ]
  | .MoodHappy => some
      [ (AnimationFrame.new
          [ "  /\\_/\\  ",
            " ( ^.^ )  ",
            "  > ^ <  ",
            " *   *  " ]).with_duration 500,
        (AnimationFrame.new
          [ "  /\\_/\\  ",
            " ( ^.^ )* ",
            "  > ^ <  " ]).with_duration 500 ]
  | .MoodExcited => some
      [ (AnimationFrame.new
          [ "  /\\_/\\  ",
            " ( *.* )  ",
            "  > ^ <  " ]).with_duration 150,
        (AnimationFrame.new
          [ "*  /\\_/\\*  ",
            " ( *.* )  ",
            "  > ^ <  " ]).with_duration 150 ]
  | .MoodSad => some
      [ (AnimationFrame.new
          [ "  /\\_/\\  ",
            " ( ;.; )  ",
            "  > ~ <  ",
            " ~   ~  " ]).with_duration 600,
        (AnimationFrame.new
          [ "  /\\_/\\  ",
            " ( ;.; )~ ",
            "  > ~ <  " ]).with_duration 600 ]
  | .MoodAngry => some
      [ (AnimationFrame.new
          [ "  /\\_/\\  ",
            " ( >.< )  ",
            "  > ^ <  " ]).with_duration 200,
        (AnimationFrame.new
          [ "  /\\_/\\  ",
            " ( >.< )  ",
            "  > n <  " ]).with_duration 200 ]
  | .EffectHearts | .EffectFood | .EffectSparkles | .EffectZzz
  | .EffectSweat => none

/-- Source `FrameCache::fallback_frame`. -/
def FrameCache.fallback_frame : AnimationFrame :=
  AnimationFrame.new
    [ "  /\\_/\\  ",
      " ( ?.? )  ",
      "  > ^ <  " ]

/-- Source `FrameCache::load`: table lookup with the single-frame defensive
fallback. -/
def FrameCache.load (t : AnimationType) : List AnimationFrame :=
  (FrameCache.load_builtin t).getD [FrameCache.fallback_frame]

/-- Source `AnimationRequest` from `src/animation/engine.rs`. -/
structure AnimationRequest where
  anim_type : AnimationType
  priority : AnimationPriority
  interrupt_lower : Bool
  deriving DecidableEq, Repr

/-- The request literal built at the top of `AnimationEngine::request`:
priority derived from the kind, may-preempt flag true iff that priority is
`Action` or higher. -/
def mkAnimationRequest (t : AnimationType) : AnimationRequest :=
  { anim_type := t
    priority := t.priority
    interrupt_lower := decide (AnimationPriority.Action ≤ t.priority) }

/-- Source `AnimationEngine` from `src/animation/engine.rs`.  The `FrameCache` field
is the static table `FrameCache.load`, so it is not part of the mutable
state. -/
structure AnimationEngine where
  current : Option ActiveAnimation
  queue : List AnimationRequest
  particles : List Particle
  last_update : ℚ
  deriving DecidableEq, Repr

/-- Source `AnimationEngine::new` (its `Instant::now()` is `now`). -/
def AnimationEngine.engineNew (now : ℚ) : AnimationEngine :=
  { current := none, queue := [], particles := [], last_update := now }

/-- Source `AnimationEngine::start_animation`: load the kind's frames, install a
fresh `ActiveAnimation`, and push one particle per spawn spec of its current
(first) frame at the fixed anchor `(10, 10)`. -/
def AnimationEngine.start_animation (e : AnimationEngine)
    (request : AnimationRequest) (now : ℚ) : AnimationEngine :=
  let frames := FrameCache.load request.anim_type
  let anim := ActiveAnimation.new request.anim_type frames now
  { e with
      current := some anim
      particles :=
        e.particles ++
          anim.current_frame_ref.particles.map (fun spec => Particle.new spec 10 10 now) }

/-- Source `AnimationEngine::interrupt_current`: `self.current.take()`, dropping the
taken animation. -/
def AnimationEngine.interrupt_current (e : AnimationEngine) : AnimationEngine :=
  { e with current := none }

/-- Source `AnimationEngine::request`: the priority/preemption policy. -/
def AnimationEngine.request (e : AnimationEngine) (t : AnimationType)
    (now : ℚ) : AnimationEngine :=
  let request := mkAnimationRequest t
  match e.current with
  | some current =>
      if request.interrupt_lower = true ∧
          current.anim_type.priority < request.priority then
        (e.interrupt_current).start_animation request now
      else if request.priority ≤ current.anim_type.priority then
        { e with queue := e.queue ++ [request] }
      else
        e.start_animation request now
  | none => e.start_animation request now

/-- Source `AnimationEngine::start_next_from_queue`: if idle, promote the front of
the queue; if still idle, fall back to requesting the default infinite
`IdleNeutral`. -/
def AnimationEngine.start_next_from_queue (e : AnimationEngine) (now : ℚ) :
    AnimationEngine :=
  let e1 :=
    match e.current, e.queue with
    | none, request :: rest => ({ e with queue := rest }).start_animation request now
    | _, _ => e
  match e1.current with
  | none => e1.request AnimationType.IdleNeutral now
  | some _ => e1

/-- Source `AnimationEngine::update_particles`: integrate every live particle by
`dt`, then retain only the still-alive ones. -/
def AnimationEngine.update_particles (e : AnimationEngine) (dt : ℚ)
    (now : ℚ) : AnimationEngine :=
  { e with
      particles := (e.particles.map (fun p => p.update dt)).filter
        (fun p => p.is_alive now) }

/-- Source `AnimationEngine::update`: one engine tick (its `Instant::now()` is
`now`). -/
def AnimationEngine.update (e : AnimationEngine) (now : ℚ) : AnimationEngine :=
  let dt := max (now - e.last_update) 0
  let e1 := { e with last_update := now }
  let e2 :=
    match e1.current with
    | some anim =>
        if anim.should_advance now = true then
          let res := anim.advance now
          let e' := { e1 with current := some res.1 }
          let e'' :=
            { e' with
                particles :=
                  e'.particles ++
                    res.1.current_frame_ref.particles.map
                      (fun spec => Particle.new spec 10 10 now) }
          if res.2 = true then
            ({ e'' with current := none }).start_next_from_queue now
          else e''
        else e1
    | none => e1.start_next_from_queue now
  e2.update_particles dt now

/-- Source `AnimationEngine::current_art`. -/
def AnimationEngine.current_art (e : AnimationEngine) : Option (List String) :=
  e.current.map (fun anim => anim.current_frame_ref.art)

/-- Source `AnimationEngine::current_type`. -/
def AnimationEngine.current_type (e : AnimationEngine) : Option AnimationType :=
  e.current.map (fun anim => anim.anim_type)

/-- Source `AnimationEngine::current_color`. -/
def AnimationEngine.current_color (e : AnimationEngine) : Option Color :=
  e.current.bind (fun anim => anim.current_frame_ref.color_override)

/-- A sequence of `Particle::update` calls, one per elapsed interval. -/
def Particle.updateMany (p : Particle) (dts : List ℚ) : Particle :=
  dts.foldl (fun q dt => q.update dt) p

/-- The spec's "equal-width text rows" property of a frame: every row has the
same character length as the first row. -/
def rowsEqualWidth (f : AnimationFrame) : Bool :=
  f.art.all (fun row => row.length = (f.art.headD "").length)

/-- Concrete one-shot animation used by witnesses: a freshly promoted
`ActionEating` (5 frames, `max_loops = some 1`) started at time `0`. -/
def eatingTestAnim : ActiveAnimation :=
  ActiveAnimation.new AnimationType.ActionEating
    (FrameCache.load AnimationType.ActionEating) 0

/-- Concrete loop-forever animation used by witnesses: a freshly promoted
`IdleNeutral` (3 frames, `max_loops = none`) started at time `0`. -/
def idleTestAnim : ActiveAnimation :=
  ActiveAnimation.new AnimationType.IdleNeutral
    (FrameCache.load AnimationType.IdleNeutral) 0

/-- Concrete busy engine used by witnesses: `IdleNeutral` playing, empty
queue. -/
def busyTestEngine : AnimationEngine :=
  { current := some idleTestAnim
    queue := []
    particles := []
    last_update := 0 }

/-- Concrete pristine engine used by witnesses: no animation yet, empty
queue, no particles, created at time `0`. -/
def emptyTestEngine : AnimationEngine := AnimationEngine.engineNew 0

/-- Concrete particle spec used by witnesses. -/
def testSpec : ParticleSpec :=
  { symbol := 'o'
    x_offset := 1
    y_offset := -1
    vx := 1 / 2
    vy := -1 / 2
    lifetime_ms := 1000
    color := Color.White }

/-- Concrete engine with one live particle (spawned at time `0`). -/
def particleTestEngine : AnimationEngine :=
  { current := some idleTestAnim
    queue := []
    particles := [Particle.new testSpec 10 10 0]
    last_update := 0 }

/-!
Helper lemmas
-/

/-- The function `advance` never changes the frame sequence. -/
theorem ActiveAnimation.advance_frames (a : ActiveAnimation) (now : ℚ) :
    ((a.advance now).1).frames = a.frames := by
  unfold ActiveAnimation.advance
  dsimp only
  split
  · split
    · split <;> rfl
    · rfl
  · rfl

/-- The function `advance` never changes the loop bound. -/
theorem ActiveAnimation.advance_max_loops (a : ActiveAnimation) (now : ℚ) :
    ((a.advance now).1).max_loops = a.max_loops := by
  unfold ActiveAnimation.advance
  dsimp only
  split
  · split
    · split <;> rfl
    · rfl
  · rfl

/-- The function `advance` always restarts the frame clock at `now`. -/
theorem ActiveAnimation.advance_frame_start (a : ActiveAnimation) (now : ℚ) :
    ((a.advance now).1).frame_start = now := by
  unfold ActiveAnimation.advance
  dsimp only
  split
  · split
    · split <;> rfl
    · rfl
  · rfl

/-- The function `advance` below the end of the sequence: step to the next frame, no
completion, loop counter untouched. -/
theorem ActiveAnimation.advance_no_wrap (a : ActiveAnimation) (now : ℚ)
    (h : a.current_frame + 1 < a.frames.length) :
    (a.advance now).1.current_frame = a.current_frame + 1 ∧
      (a.advance now).1.loop_count = a.loop_count ∧ (a.advance now).2 = false := by
  unfold ActiveAnimation.advance
  dsimp only
  rw [if_neg (by omega)]
  exact ⟨rfl, rfl, rfl⟩

/-- The function `advance` past the end of a one-shot sequence: clamp to the last frame and
report completion (the loop counter, previously `loop_count`, reaches the
bound `1` no matter its prior value, since `1 ≤ loop_count + 1`). -/
theorem ActiveAnimation.advance_one_shot_wrap (a : ActiveAnimation) (now : ℚ)
    (hm : a.max_loops = some 1) (h : a.frames.length ≤ a.current_frame + 1) :
    (a.advance now).1.current_frame = a.frames.length - 1 ∧
      (a.advance now).2 = true := by
  unfold ActiveAnimation.advance
  dsimp only
  rw [if_pos h, hm]
  dsimp only
  rw [if_pos (by omega)]
  exact ⟨rfl, rfl⟩

/-- A loop-forever animation (`max_loops = none`) never reports completion. -/
theorem ActiveAnimation.advance_infinite_not_completed (a : ActiveAnimation)
    (now : ℚ) (hm : a.max_loops = none) :
    (a.advance now).2 = false := by
  unfold ActiveAnimation.advance
  dsimp only
  split
  · rw [hm]
  · rfl

/-- A loop-forever animation wraps its index to `0` at the end of the
sequence. -/
theorem ActiveAnimation.advance_infinite_wrap (a : ActiveAnimation) (now : ℚ)
    (hm : a.max_loops = none) (h : a.frames.length ≤ a.current_frame + 1) :
    (a.advance now).1.current_frame = 0 := by
  unfold ActiveAnimation.advance
  dsimp only
  rw [if_pos h, hm]

/-- Iterated `advance` never changes the frame sequence. -/
theorem ActiveAnimation.advanceN_frames (a : ActiveAnimation) (now : ℚ)
    (k : ℕ) : (a.advanceN now k).frames = a.frames := by
  induction k with
  | zero => rfl
  | succ k ih => rw [ActiveAnimation.advanceN, ActiveAnimation.advance_frames, ih]

/-- Iterated `advance` never changes the loop bound. -/
theorem ActiveAnimation.advanceN_max_loops (a : ActiveAnimation) (now : ℚ)
    (k : ℕ) : (a.advanceN now k).max_loops = a.max_loops := by
  induction k with
  | zero => rfl
  | succ k ih => rw [ActiveAnimation.advanceN, ActiveAnimation.advance_max_loops, ih]

/-- Before any wrap-around, a freshly started animation is at frame `k` with
loop counter `0` after `k` advances. -/
theorem ActiveAnimation.advanceN_fresh (a : ActiveAnimation) (now : ℚ)
    (h0 : a.current_frame = 0) (hl : a.loop_count = 0) :
    ∀ k, k < a.frames.length →
      (a.advanceN now k).current_frame = k ∧
        (a.advanceN now k).loop_count = 0 := by
  intro k
  induction k with
  | zero => exact fun _ => ⟨h0, hl⟩
  | succ k ih =>
      intro hk
      have ihk := ih (by omega)
      have hfr := a.advanceN_frames now k
      have hstep := (a.advanceN now k).advance_no_wrap now
        (by rw [ihk.1, hfr]; exact hk)
      rw [ActiveAnimation.advanceN]
      exact ⟨by rw [hstep.1, ihk.1], by rw [hstep.2.1, ihk.2]⟩

/-- Successor modulo: the non-wrapping case. -/
theorem succ_mod_of_succ_lt {k L : ℕ} (h : k % L + 1 < L) :
    (k + 1) % L = k % L + 1 := by
  have hL : 1 < L := by omega
  rw [Nat.add_mod, Nat.mod_eq_of_lt hL, Nat.mod_eq_of_lt h]

/-- Successor modulo: the wrapping case. -/
theorem succ_mod_of_succ_eq {k L : ℕ} (h : k % L + 1 = L) : (k + 1) % L = 0 := by
  rcases Nat.lt_or_ge 1 L with hL | hL
  · rw [Nat.add_mod, Nat.mod_eq_of_lt hL, h, Nat.mod_self]
  · interval_cases L
    · omega
    · simp [Nat.mod_one]

/-- A loop-forever animation started at frame `0` cycles its index with period
the sequence length. -/
theorem ActiveAnimation.advanceN_infinite_mod (a : ActiveAnimation) (now : ℚ)
    (hm : a.max_loops = none) (h0 : a.current_frame = 0)
    (hL : 0 < a.frames.length) :
    ∀ k, (a.advanceN now k).current_frame = k % a.frames.length := by
  intro k
  induction k with
  | zero => rw [ActiveAnimation.advanceN, h0, Nat.zero_mod]
  | succ k ih =>
      have hfr := a.advanceN_frames now k
      have hmx := a.advanceN_max_loops now k
      have hmod : k % a.frames.length < a.frames.length := Nat.mod_lt _ hL
      rw [ActiveAnimation.advanceN]
      rcases Nat.lt_or_ge (k % a.frames.length + 1) a.frames.length with hlt | hge
      · have hstep := (a.advanceN now k).advance_no_wrap now
          (by rw [ih, hfr]; exact hlt)
        rw [hstep.1, ih, succ_mod_of_succ_lt hlt]
      · have heq : k % a.frames.length + 1 = a.frames.length := by omega
        have hstep := (a.advanceN now k).advance_infinite_wrap now
          (by rw [hmx, hm]) (by rw [ih, hfr]; omega)
        rw [hstep, succ_mod_of_succ_eq heq]

/-!
Claim C3: one-shot completion semantics of `advance`
-/

/-- **C3.**  For a one-shot animation (`max_loops = Some(1)`) with a non-empty
frame sequence: `advance` always restarts the frame clock at `now`; called at
the last frame it reports completed and clamps the index to the last valid
frame; called strictly before the last frame it reports not completed; and a
freshly started one-shot animation reports completion exactly once over its
lifetime — among the calls up to the point the engine discards it, precisely
the `len`-th call (and no earlier one) returns completed. -/
theorem one_shot_completion (a : ActiveAnimation) (now : ℚ)
    (hm : a.max_loops = some 1) (_hL : 0 < a.frames.length) :
    ((a.advance now).1.frame_start = now) ∧
    (a.frames.length ≤ a.current_frame + 1 →
      (a.advance now).2 = true ∧
        (a.advance now).1.current_frame = a.frames.length - 1) ∧
    (a.current_frame + 1 < a.frames.length → (a.advance now).2 = false) ∧
    (a.current_frame = 0 → a.loop_count = 0 →
      ∀ k, k < a.frames.length →
        (((a.advanceN now k).advance now).2 = true ↔
          k + 1 = a.frames.length)) := by
  refine ⟨a.advance_frame_start now, ?_, ?_, ?_⟩
  · intro h
    have hw := a.advance_one_shot_wrap now hm h
    exact ⟨hw.2, hw.1⟩
  · intro h
    exact (a.advance_no_wrap now h).2.2
  · intro h0 hl k hk
    have ihk := a.advanceN_fresh now h0 hl k hk
    have hfr := a.advanceN_frames now k
    have hmx := a.advanceN_max_loops now k
    constructor
    · intro htrue
      by_contra hne
      have hlt : k + 1 < a.frames.length := by omega
      have hfalse := ((a.advanceN now k).advance_no_wrap now
        (by rw [ihk.1, hfr]; exact hlt)).2.2
      rw [hfalse] at htrue
      exact Bool.false_ne_true htrue
    · intro heq
      exact ((a.advanceN now k).advance_one_shot_wrap now (by rw [hmx, hm])
        (by rw [ihk.1, hfr]; omega)).2

/-- Witness for C3 at the concrete `ActionEating` one-shot animation. -/
theorem one_shot_completion_witness :
    eatingTestAnim.max_loops = some 1 ∧ 0 < eatingTestAnim.frames.length ∧
      (((eatingTestAnim.advance 7).1.frame_start = 7) ∧
       (eatingTestAnim.frames.length ≤ eatingTestAnim.current_frame + 1 →
         (eatingTestAnim.advance 7).2 = true ∧
           (eatingTestAnim.advance 7).1.current_frame =
             eatingTestAnim.frames.length - 1) ∧
       (eatingTestAnim.current_frame + 1 < eatingTestAnim.frames.length →
         (eatingTestAnim.advance 7).2 = false) ∧
       (eatingTestAnim.current_frame = 0 → eatingTestAnim.loop_count = 0 →
         ∀ k, k < eatingTestAnim.frames.length →
           (((eatingTestAnim.advanceN 7 k).advance 7).2 = true ↔
             k + 1 = eatingTestAnim.frames.length))) :=
  ⟨by decide, by decide,
    one_shot_completion eatingTestAnim 7 (by decide) (by decide)⟩

/-!
Claim C4: loop-forever animations cycle and never complete
-/

/-- **C4.**  An animation with `max_loops = None` over a non-empty sequence
never reports completion, however many times `advance` is called; and
starting from frame index `0`, after `k` advance calls the index is
`k mod len` (it cycles with period the sequence length). -/
theorem infinite_cycles_never_completes (a : ActiveAnimation) (now : ℚ)
    (hm : a.max_loops = none) (hL : 0 < a.frames.length) :
    (∀ k, ((a.advanceN now k).advance now).2 = false) ∧
    (a.current_frame = 0 →
      ∀ k, (a.advanceN now k).current_frame = k % a.frames.length) := by
  constructor
  · intro k
    exact (a.advanceN now k).advance_infinite_not_completed now
      (by rw [a.advanceN_max_loops now k, hm])
  · intro h0
    exact a.advanceN_infinite_mod now hm h0 hL

/-- Witness for C4 at the concrete `IdleNeutral` looping animation. -/
theorem infinite_cycles_never_completes_witness :
    idleTestAnim.max_loops = none ∧ 0 < idleTestAnim.frames.length ∧
      ((∀ k, ((idleTestAnim.advanceN 2 k).advance 2).2 = false) ∧
       (idleTestAnim.current_frame = 0 →
         ∀ k, (idleTestAnim.advanceN 2 k).current_frame =
           k % idleTestAnim.frames.length)) :=
  ⟨by decide, by decide,
    infinite_cycles_never_completes idleTestAnim 2 (by decide) (by decide)⟩

/-!
Claim C5: the frame index stays in bounds
-/

/-- **C5.**  Over a non-empty frame sequence the frame index is a valid index
(strictly below the sequence length) at creation, and again after any
`advance` call — including the completing call, which clamps it to the last
valid frame. -/
theorem frame_index_in_bounds (t : AnimationType) (frames : List AnimationFrame)
    (a : ActiveAnimation) (now : ℚ) (hN : 0 < frames.length)
    (hA : 0 < a.frames.length) :
    (ActiveAnimation.new t frames now).current_frame < frames.length ∧
    (a.advance now).1.current_frame < (a.advance now).1.frames.length := by
  constructor
  · exact hN
  · rw [ActiveAnimation.advance_frames]
    unfold ActiveAnimation.advance
    dsimp only
    split
    · split
      · split
        · dsimp only
          omega
        · dsimp only
          omega
      · dsimp only
        omega
    · dsimp only
      omega

/-- Witness for C5 at `IdleNeutral` frames and a concrete advancing
animation. -/
theorem frame_index_in_bounds_witness :
    0 < (FrameCache.load AnimationType.IdleNeutral).length ∧
    0 < eatingTestAnim.frames.length ∧
      ((ActiveAnimation.new AnimationType.IdleNeutral
          (FrameCache.load AnimationType.IdleNeutral) 3).current_frame <
        (FrameCache.load AnimationType.IdleNeutral).length ∧
       (eatingTestAnim.advance 3).1.current_frame <
         (eatingTestAnim.advance 3).1.frames.length) :=
  ⟨by decide, by decide,
    frame_index_in_bounds AnimationType.IdleNeutral
      (FrameCache.load AnimationType.IdleNeutral) eatingTestAnim 3
      (by decide) (by decide)⟩

/-!
Claim C7: particles are spawned at `anchor + offset` and move linearly
-/

/-- The function `update` never changes the spec of a particle. -/
theorem Particle.update_spec (p : Particle) (dt : ℚ) :
    (p.update dt).spec = p.spec := rfl

/-- Iterated updates displace a particle by `velocity × (total elapsed
time)`. -/
theorem Particle.updateMany_pos (p : Particle) (dts : List ℚ) :
    (p.updateMany dts).x = p.x + p.spec.vx * dts.sum ∧
      (p.updateMany dts).y = p.y + p.spec.vy * dts.sum := by
  induction dts generalizing p with
  | nil =>
      simp [Particle.updateMany]
  | cons dt dts ih =>
      have h := ih (p.update dt)
      simp only [Particle.updateMany, List.foldl_cons, List.sum_cons] at h ⊢
      rw [h.1, h.2]
      unfold Particle.update
      dsimp only
      constructor <;> ring

/-- **C7.**  A particle is spawned at `anchor + spec.offset` with no
accumulated motion, and after any sequence of `update` calls whose intervals
sum to `t` its position is exactly `anchor + spec.offset + spec.velocity × t`
(linear motion, no acceleration).  Coordinates are the exact-rational model
of the `f32` arithmetic the code performs. -/
theorem particle_linear_motion (spec : ParticleSpec) (base_x base_y : ℕ)
    (now : ℚ) (dts : List ℚ) :
    (Particle.new spec base_x base_y now).x =
        (base_x : ℚ) + (spec.x_offset : ℚ) ∧
    (Particle.new spec base_x base_y now).y =
        (base_y : ℚ) + (spec.y_offset : ℚ) ∧
    ((Particle.new spec base_x base_y now).updateMany dts).x =
        (base_x : ℚ) + (spec.x_offset : ℚ) + spec.vx * dts.sum ∧
    ((Particle.new spec base_x base_y now).updateMany dts).y =
        (base_y : ℚ) + (spec.y_offset : ℚ) + spec.vy * dts.sum := by
  have h := (Particle.new spec base_x base_y now).updateMany_pos dts
  exact ⟨rfl, rfl, by rw [h.1]; rfl, by rw [h.2]; rfl⟩

/-!
Claim C1: the preemption policy of `request`
-/

/-- **C1.**  With an active animation present: a request of strictly greater
derived priority immediately replaces the current animation (whatever the
may-preempt flag is — the conclusion holds for every kind `t`) and leaves the
queue untouched; a request of lower or equal priority is appended to the back
of the FIFO queue (length grows by exactly one) and leaves the current
animation unchanged. -/
theorem request_preempt_or_enqueue (e : AnimationEngine)
    (cur : ActiveAnimation) (t : AnimationType) (now : ℚ)
    (h : e.current = some cur) :
    (cur.anim_type.priority < t.priority →
      (e.request t now).current =
          some (ActiveAnimation.new t (FrameCache.load t) now) ∧
        (e.request t now).queue = e.queue) ∧
    (t.priority ≤ cur.anim_type.priority →
      (e.request t now).current = some cur ∧
        (e.request t now).queue = e.queue ++ [mkAnimationRequest t] ∧
        (e.request t now).queue.length = e.queue.length + 1) := by
  unfold AnimationEngine.request
  rw [h]
  dsimp only
  constructor
  · intro hlt
    by_cases hil : (mkAnimationRequest t).interrupt_lower = true
    · rw [if_pos ⟨hil, hlt⟩]
      exact ⟨rfl, rfl⟩
    · rw [if_neg (fun hc => hil hc.1),
        if_neg (show ¬((mkAnimationRequest t).priority ≤
          cur.anim_type.priority) from not_le.mpr hlt)]
      exact ⟨rfl, rfl⟩
  · intro hle
    rw [if_neg (fun hc => absurd hle (not_le.mpr hc.2)),
      if_pos (show (mkAnimationRequest t).priority ≤
        cur.anim_type.priority from hle)]
    exact ⟨rfl, rfl, by simp⟩

/-- Witness for C1: an `ActionEating` request (priority `Action`) arriving
over the busy engine's `IdleNeutral` animation (priority `Idle`). -/
theorem request_preempt_or_enqueue_witness :
    busyTestEngine.current = some idleTestAnim ∧
      ((idleTestAnim.anim_type.priority < AnimationType.ActionEating.priority →
        (busyTestEngine.request AnimationType.ActionEating 1).current =
            some (ActiveAnimation.new AnimationType.ActionEating
              (FrameCache.load AnimationType.ActionEating) 1) ∧
          (busyTestEngine.request AnimationType.ActionEating 1).queue =
            busyTestEngine.queue) ∧
       (AnimationType.ActionEating.priority ≤ idleTestAnim.anim_type.priority →
         (busyTestEngine.request AnimationType.ActionEating 1).current =
             some idleTestAnim ∧
           (busyTestEngine.request AnimationType.ActionEating 1).queue =
             busyTestEngine.queue ++
               [mkAnimationRequest AnimationType.ActionEating] ∧
           (busyTestEngine.request AnimationType.ActionEating 1).queue.length =
             busyTestEngine.queue.length + 1)) :=
  ⟨rfl, request_preempt_or_enqueue busyTestEngine idleTestAnim
    AnimationType.ActionEating 1 rfl⟩

/-!
Claim C10: `request` never disturbs already-queued entries
-/

/-- **C10.**  `request` either leaves the pending queue exactly as it was
(when it preempts the current animation, or when the engine was idle) or
appends the new request at the back; it never removes, reorders, or edits
existing entries. -/
theorem request_preserves_queue (e : AnimationEngine) (t : AnimationType)
    (now : ℚ) :
    ((e.request t now).queue = e.queue ∨
      (e.request t now).queue = e.queue ++ [mkAnimationRequest t]) ∧
    (e.current = none → (e.request t now).queue = e.queue) ∧
    (∀ cur, e.current = some cur → cur.anim_type.priority < t.priority →
      (e.request t now).queue = e.queue) := by
  unfold AnimationEngine.request
  cases hc : e.current with
  | none =>
      dsimp only
      exact ⟨Or.inl rfl, fun _ => rfl, fun cur hcur => nomatch hcur⟩
  | some cur =>
      dsimp only
      by_cases h1 : (mkAnimationRequest t).interrupt_lower = true ∧
          cur.anim_type.priority < (mkAnimationRequest t).priority
      · rw [if_pos h1]
        exact ⟨Or.inl rfl, fun hn => Option.noConfusion hn, fun _ _ _ => rfl⟩
      · rw [if_neg h1]
        by_cases h2 : (mkAnimationRequest t).priority ≤ cur.anim_type.priority
        · rw [if_pos h2]
          refine ⟨Or.inr rfl, fun hn => Option.noConfusion hn,
            fun cur2 hcur2 hlt => ?_⟩
          cases hcur2
          exact absurd hlt (not_lt.mpr h2)
        · rw [if_neg h2]
          exact ⟨Or.inl rfl, fun hn => Option.noConfusion hn, fun _ _ _ => rfl⟩

/-- Witness for C10: the preempting `ActionEating` request leaves the busy
engine's queue exactly as it was. -/
theorem request_preserves_queue_witness :
    ((busyTestEngine.request AnimationType.ActionEating 1).queue =
        busyTestEngine.queue ∨
      (busyTestEngine.request AnimationType.ActionEating 1).queue =
        busyTestEngine.queue ++ [mkAnimationRequest AnimationType.ActionEating]) ∧
    (busyTestEngine.current = none →
      (busyTestEngine.request AnimationType.ActionEating 1).queue =
        busyTestEngine.queue) ∧
    (∀ cur, busyTestEngine.current = some cur →
      cur.anim_type.priority < AnimationType.ActionEating.priority →
      (busyTestEngine.request AnimationType.ActionEating 1).queue =
        busyTestEngine.queue) :=
  request_preserves_queue busyTestEngine AnimationType.ActionEating 1

/-!
Claim C2: `update` always leaves an active animation
-/

/-- The function `update_particles` only touches the particle list. -/
theorem AnimationEngine.update_particles_current (e : AnimationEngine)
    (dt now : ℚ) : (e.update_particles dt now).current = e.current := rfl

/-- The function `update_particles` leaves the queue alone. -/
theorem AnimationEngine.update_particles_queue (e : AnimationEngine)
    (dt now : ℚ) : (e.update_particles dt now).queue = e.queue := rfl

/-- The function `start_animation` installs exactly the freshly created animation for the
request's kind. -/
theorem AnimationEngine.start_animation_current (e : AnimationEngine)
    (request : AnimationRequest) (now : ℚ) :
    (e.start_animation request now).current =
      some (ActiveAnimation.new request.anim_type
        (FrameCache.load request.anim_type) now) := rfl

/-- The function `request` on an idle engine promotes the kind immediately. -/
theorem AnimationEngine.request_of_none (e : AnimationEngine)
    (t : AnimationType) (now : ℚ) (h : e.current = none) :
    e.request t now = e.start_animation (mkAnimationRequest t) now := by
  unfold AnimationEngine.request
  rw [h]

/-- The function `start_next_from_queue` always leaves some animation current. -/
theorem AnimationEngine.start_next_some (e : AnimationEngine) (now : ℚ) :
    ((e.start_next_from_queue now).current).isSome = true := by
  unfold AnimationEngine.start_next_from_queue
  cases hc : e.current with
  | some anim => cases hq : e.queue <;> simp [hc]
  | none =>
      cases hq : e.queue with
      | cons req rest => rfl
      | nil =>
          dsimp only
          rw [AnimationEngine.request_of_none _ _ _ hc, hc]
          rfl

/-- The function `current_art` is populated exactly when an animation is current. -/
theorem AnimationEngine.current_art_isSome (e : AnimationEngine) :
    (e.current_art).isSome = (e.current).isSome := by
  unfold AnimationEngine.current_art
  cases e.current <;> rfl

/-- After any `update` call, some animation is current. -/
theorem AnimationEngine.update_current_isSome (e : AnimationEngine) (now : ℚ) :
    ((e.update now).current).isSome = true := by
  unfold AnimationEngine.update
  dsimp only
  rw [AnimationEngine.update_particles_current]
  cases hc : e.current with
  | none => exact AnimationEngine.start_next_some _ now
  | some anim =>
      dsimp only
      by_cases hsa : anim.should_advance now = true
      · rw [if_pos hsa]
        by_cases hcp : (anim.advance now).2 = true
        · rw [if_pos hcp]
          exact AnimationEngine.start_next_some _ now
        · rw [if_neg hcp]
          rfl
      · rw [if_neg hsa]
        rfl

/-- The function `start_next_from_queue` on an idle engine with an empty queue falls back
to promoting the default `IdleNeutral` request. -/
theorem AnimationEngine.start_next_idle_empty (e : AnimationEngine) (now : ℚ)
    (hc : e.current = none) (hq : e.queue = []) :
    e.start_next_from_queue now =
      e.start_animation (mkAnimationRequest AnimationType.IdleNeutral) now := by
  unfold AnimationEngine.start_next_from_queue
  rw [hc, hq]
  dsimp only
  rw [hc]
  dsimp only
  rw [AnimationEngine.request_of_none _ _ _ hc]

/-- The function `start_next_from_queue` on an idle engine pops and promotes the front of
the queue. -/
theorem AnimationEngine.start_next_pop (e : AnimationEngine) (now : ℚ)
    (req : AnimationRequest) (rest : List AnimationRequest)
    (hc : e.current = none) (hq : e.queue = req :: rest) :
    e.start_next_from_queue now =
      ({ e with queue := rest }).start_animation req now := by
  unfold AnimationEngine.start_next_from_queue
  rw [hc, hq]
  rfl

/-- An idle engine with an empty queue synthesizes and promotes the default
infinite `IdleNeutral` animation within the same `update` call. -/
theorem AnimationEngine.update_promotes_default (e : AnimationEngine)
    (now : ℚ) (hc : e.current = none) (hq : e.queue = []) :
    (e.update now).current =
      some (ActiveAnimation.new AnimationType.IdleNeutral
        (FrameCache.load AnimationType.IdleNeutral) now) := by
  unfold AnimationEngine.update
  dsimp only
  rw [AnimationEngine.update_particles_current, hc]
  dsimp only
  rw [AnimationEngine.start_next_idle_empty
    { current := none, queue := e.queue, particles := e.particles,
      last_update := now } now rfl hq]
  rfl

/-- When the current one-shot animation completes inside `update`, the front
of the FIFO queue is promoted in the same call and removed from the queue. -/
theorem AnimationEngine.update_completed_pops (e : AnimationEngine)
    (cur : ActiveAnimation) (now : ℚ) (req : AnimationRequest)
    (rest : List AnimationRequest) (hc : e.current = some cur)
    (hsa : cur.should_advance now = true) (hcp : (cur.advance now).2 = true)
    (hq : e.queue = req :: rest) :
    (e.update now).current =
        some (ActiveAnimation.new req.anim_type
          (FrameCache.load req.anim_type) now) ∧
      (e.update now).queue = rest := by
  unfold AnimationEngine.update
  dsimp only
  rw [AnimationEngine.update_particles_current,
    AnimationEngine.update_particles_queue, hc]
  dsimp only
  rw [if_pos hsa, if_pos hcp,
    AnimationEngine.start_next_pop
      { current := none, queue := e.queue,
        particles :=
          e.particles ++
            List.map (fun spec => Particle.new spec 10 10 now)
              (cur.advance now).1.current_frame_ref.particles,
        last_update := now } now req rest rfl hq]
  exact ⟨rfl, rfl⟩

/-- **C2.**  After every completed `update()` call the engine has an active
animation (`current_art` returns some art): when a one-shot completes, the
front of the queue is promoted in the same call, and with an empty queue the
default infinite `IdleNeutral` kind is promoted; so `current_art` can be
`none` only before the first `update()`. -/
theorem update_always_has_animation (e : AnimationEngine) (now : ℚ) :
    ((e.update now).current_art).isSome = true ∧
    (e.current = none → e.queue = [] →
      (e.update now).current =
        some (ActiveAnimation.new AnimationType.IdleNeutral
          (FrameCache.load AnimationType.IdleNeutral) now)) ∧
    (∀ cur req rest, e.current = some cur → cur.should_advance now = true →
      (cur.advance now).2 = true → e.queue = req :: rest →
      (e.update now).current =
          some (ActiveAnimation.new req.anim_type
            (FrameCache.load req.anim_type) now) ∧
        (e.update now).queue = rest) := by
  refine ⟨?_, ?_, ?_⟩
  · rw [AnimationEngine.current_art_isSome]
    exact e.update_current_isSome now
  · exact fun hc hq => e.update_promotes_default now hc hq
  · exact fun cur req rest hc hsa hcp hq =>
      e.update_completed_pops cur now req rest hc hsa hcp hq

/-- Witness for C2: the first `update` on a pristine engine promotes
`IdleNeutral` and leaves `current_art` populated. -/
theorem update_always_has_animation_witness :
    emptyTestEngine.current = none ∧ emptyTestEngine.queue = [] ∧
      ((emptyTestEngine.update 1).current_art).isSome = true ∧
      (emptyTestEngine.update 1).current =
        some (ActiveAnimation.new AnimationType.IdleNeutral
          (FrameCache.load AnimationType.IdleNeutral) 1) :=
  ⟨rfl, rfl, (update_always_has_animation emptyTestEngine 1).1,
    (update_always_has_animation emptyTestEngine 1).2.1 rfl rfl⟩

/-!
Claim C6: no particle outlives its lifetime across an `update` pass
-/

/-- Everything `update_particles` retains passes the `is_alive` filter. -/
theorem AnimationEngine.mem_update_particles_alive (x : AnimationEngine)
    (dt now : ℚ) (p : Particle)
    (hp : p ∈ (x.update_particles dt now).particles) :
    p.is_alive now = true := by
  unfold AnimationEngine.update_particles at hp
  dsimp only at hp
  exact (List.mem_filter.mp hp).2

/-- **C6.**  Every particle still in the live list after an `update()` call
has age strictly below its spec lifetime; particles at or past their lifetime
are removed by that same pass, and the pruning runs unconditionally on every
`update()` (the statement holds for every engine state, whether or not any
animation state changed). -/
theorem update_prunes_expired (e : AnimationEngine) (now : ℚ) (p : Particle)
    (hp : p ∈ (e.update now).particles) :
    p.is_alive now = true ∧
      max (now - p.birth_time) 0 < (p.spec.lifetime_ms : ℚ) / 1000 := by
  have halive : p.is_alive now = true := by
    unfold AnimationEngine.update at hp
    dsimp only at hp
    exact AnimationEngine.mem_update_particles_alive _ _ _ _ hp
  refine ⟨halive, ?_⟩
  have h := of_decide_eq_true halive
  simpa [millis] using h

unseal Rat.add Rat.mul Rat.inv Rat.sub in
/-- Witness for C6: after an `update` at `t = 0.1 s` the (moved) particle is
still live and its age is below its 1000 ms lifetime. -/
theorem update_prunes_expired_witness :
    ((Particle.new testSpec 10 10 0).update (1 / 10)) ∈
        (particleTestEngine.update (1 / 10)).particles ∧
      (((Particle.new testSpec 10 10 0).update (1 / 10)).is_alive (1 / 10) =
          true ∧
        max ((1 / 10 : ℚ) -
            ((Particle.new testSpec 10 10 0).update (1 / 10)).birth_time) 0 <
          (((Particle.new testSpec 10 10 0).update
              (1 / 10)).spec.lifetime_ms : ℚ) / 1000) :=
  ⟨by decide, update_prunes_expired particleTestEngine (1 / 10) _ (by decide)⟩

/-!
Claim C8: which kinds the Frame Library actually covers

The claim says the fallback branch of `load` is unreachable for every value
of the closed enumeration.  That is false: `load_builtin` never inserts the
five `Effect*` kinds, so `load` returns the fallback for them.
-/

/-- Counterexample to C8 as stated: `EffectHearts` is a value of the closed
enumeration, yet it is absent from the compiled-in table and `load` takes the
single-frame fallback branch for it. -/
theorem load_fallback_reachable_for_effect_hearts :
    FrameCache.load_builtin AnimationType.EffectHearts = none ∧
      FrameCache.load AnimationType.EffectHearts =
        [FrameCache.fallback_frame] :=
  ⟨rfl, rfl⟩

/-- **C8 (amended).**  `load` returns the compiled-in sequence exactly for
the 19 non-`Effect` kinds (those whose derived priority is not `Background`);
for the five `Effect*` kinds the table has no entry and `load` returns the
single-frame fallback, so the fallback branch is reachable. -/
theorem load_table_covers_non_effects (t : AnimationType) :
    ((FrameCache.load_builtin t).isSome = true ↔
        t.priority ≠ AnimationPriority.Background) ∧
    (∀ fs, FrameCache.load_builtin t = some fs → FrameCache.load t = fs) ∧
    (FrameCache.load_builtin t = none →
      FrameCache.load t = [FrameCache.fallback_frame]) := by
  refine ⟨?_, ?_, ?_⟩
  · cases t <;> decide
  · intro fs h
    simp [FrameCache.load, h]
  · intro h
    simp [FrameCache.load, h]

/-- Witness for C8 (amended), discharging both implications at concrete
kinds: the table hit at `IdleNeutral` and the fallback at `EffectHearts`. -/
theorem load_table_covers_non_effects_witness :
    FrameCache.load_builtin AnimationType.IdleNeutral =
        some (FrameCache.load AnimationType.IdleNeutral) ∧
      FrameCache.load AnimationType.IdleNeutral =
        FrameCache.load AnimationType.IdleNeutral ∧
      FrameCache.load_builtin AnimationType.EffectHearts = none ∧
      FrameCache.load AnimationType.EffectHearts =
        [FrameCache.fallback_frame] ∧
      ((FrameCache.load_builtin AnimationType.EffectHearts).isSome = true ↔
        AnimationType.EffectHearts.priority ≠ AnimationPriority.Background) :=
  ⟨rfl,
    (load_table_covers_non_effects AnimationType.IdleNeutral).2.1
      (FrameCache.load AnimationType.IdleNeutral) rfl,
    rfl,
    (load_table_covers_non_effects AnimationType.EffectHearts).2.2 rfl,
    (load_table_covers_non_effects AnimationType.EffectHearts).1⟩

/-!
Claim C9: equal-width art rows

The claim says every frame of every compiled-in sequence has equal-width
rows.  That is false: e.g. frame 0 of `ActionEating` has row widths
10, 10, 9.  Equal width does hold throughout the four `Idle*` sequences.
-/

/-- Counterexample to C9 as stated: frame 0 of the `ActionEating` sequence
has rows of widths 10, 10 and 9. -/
theorem action_eating_frame_rows_ragged :
    (((FrameCache.load AnimationType.ActionEating).headD
          FrameCache.fallback_frame).art.map String.length = [10, 10, 9]) ∧
      rowsEqualWidth ((FrameCache.load AnimationType.ActionEating).headD
        FrameCache.fallback_frame) = false :=
  ⟨by decide, by decide⟩

/-- **C9 (amended).**  All rows of a frame have equal character width for
every frame of the four `Idle`-family sequences; it fails for some frame of
every other family (e.g. `ActionEating` frame 0, widths 10/10/9). -/
theorem idle_frames_rows_equal_width (t : AnimationType)
    (h : t.priority = AnimationPriority.Idle) :
    (FrameCache.load t).all rowsEqualWidth = true := by
  cases t <;> first
    | decide
    | exact absurd h (by decide)

/-- Witness for C9 (amended) at `IdleNeutral`. -/
theorem idle_frames_rows_equal_width_witness :
    AnimationType.IdleNeutral.priority = AnimationPriority.Idle ∧
      (FrameCache.load AnimationType.IdleNeutral).all rowsEqualWidth = true :=
  ⟨by decide, idle_frames_rows_equal_width AnimationType.IdleNeutral (by decide)⟩
